import Mathlib

/-!
Verification of the AI-analysis-service job orchestrator
(`src/microservices/ai-analysis-service/src/services/analysis_service.py`,
`.../api/analysis_router.py`, `.../services/message_queue.py`).

The embedding models the service as a pure state-transition system:
* `Val` is a JSON value (the only data shape reaching the orchestrator:
  plain dicts/lists/strings/numbers/bools/None).  Python numbers are
  modelled as rationals; all arithmetic the code performs on them
  (comparison with 1.0, scaling by 100, `round`, `min`/`max`) is exact
  on the rationals appearing here.
* `ServiceState` holds the three persistence tiers (Redis status/result
  caches, the Mongo `analysis_requests` and `analysis_details`
  collections) plus the in-process `active_analyses` registry and the
  queue metrics.  Adapter availability (`is_ready` / `_connected`) is a
  boolean per tier; every datetime value is abstracted (only the
  *presence* of `started_at`/`completed_at` is tracked, and the
  `updated_at`/`completedAt`/`timestamp` strings are left empty), since
  no modelled behaviour branches on a timestamp value.
* Redis `set`/`get` round-trips `json.dumps`/`json.loads`, so the caches
  store the decoded `Val` directly; a stored result is a non-empty JSON
  string in the code, hence always truthy on read.
* Mongo `insert_one` appends a document and `find_one` (without a sort)
  returns the first match in natural order; `update_one(..., upsert=True)`
  updates the first match in place or appends a fresh document.
-/

/-- A JSON value as handled by the service (Python dict/list/str/num/bool/None).
Python numbers are modelled as rationals. -/
inductive Val where
  | null : Val
  | bool : Bool → Val
  | num : ℚ → Val
  | str : String → Val
  | arr : List Val → Val
  | obj : List (String × Val) → Val

/-- First-match lookup in an association list (Python `dict` access /
Mongo `find_one` in natural order). -/
def afind {α : Type} (k : String) : List (String × α) → Option α
  | [] => none
  | (k2, v) :: rest => if k == k2 then some v else afind k rest

/-- Update the first binding of `k` in place, or append one
(Python `d[k] = v`; Mongo `update_one` with `upsert=True`). -/
def aset {α : Type} (k : String) (v : α) : List (String × α) → List (String × α)
  | [] => [(k, v)]
  | (k2, w) :: rest => if k == k2 then (k2, v) :: rest else (k2, w) :: aset k v rest

/-- Remove every binding of `k` (Python `del d[k]`). -/
def aremove {α : Type} (k : String) : List (String × α) → List (String × α)
  | [] => []
  | (k2, w) :: rest => if k == k2 then aremove k rest else (k2, w) :: aremove k rest

/-- Python truthiness of a JSON value (`bool(x)`). -/
def truthy : Val → Bool
  | Val.null => false
  | Val.bool b => b
  | Val.num q => q != 0
  | Val.str s => s != ""
  | Val.arr xs => !xs.isEmpty
  | Val.obj fs => !fs.isEmpty

/-- Truthiness of an optional string argument (`if error_message:` on a
parameter that defaults to `None`). -/
def truthyOptStr : Option String → Bool
  | none => false
  | some m => m != ""

/-- `dict.get(k)` on a value known to be a dict (returns `None`, modelled
as `Option.none`, when the key is absent).  On a non-dict this helper
returns `none` as well; it is only applied where the source guarantees a
dict. -/
def objGet : Val → String → Option Val
  | Val.obj fs, k => afind k fs
  | _, _ => none

/-- `k in d` membership test on a dict. -/
def hasKey : Val → String → Bool
  | Val.obj fs, k => (afind k fs).isSome
  | _, _ => false

/-- `isinstance(x, dict)`. -/
def isObj : Val → Bool
  | Val.obj _ => true
  | _ => false

/-- `x.get(k)` where `x` may not be a dict: Python raises
`AttributeError` in that case, modelled as `Except.error`. -/
def dictGet (v : Val) (k : String) : Except String (Option Val) :=
  match v with
  | Val.obj fs => Except.ok (afind k fs)
  | _ => Except.error "AttributeError: get called on a non-dict value"

/-- `x or {}`: keep `x` when truthy, otherwise the empty dict.  Used on
the result of `result_obj.get(...)`, where an absent key gives `None`. -/
def orEmptyDict : Option Val → Val
  | some w => if truthy w then w else Val.obj []
  | none => Val.obj []

/-- `_to_jsonable` (analysis_service.py lines 45-89): a deep conversion of
pydantic/enum/datetime-rich data into plain JSON.  Every value
representable as `Val` is already plain JSON, on which the conversion is
the identity (primitives returned as-is, dict keys already strings,
lists mapped element-wise). -/
def to_jsonable (v : Val) : Val := v

/-- `_serialize_analysis_result` (lines 91-109): deep-serialize, then wrap
non-dict values as `{"result": ..., "timestamp": ...}` (the timestamp
string is abstracted as empty). -/
def serialize_analysis_result (v : Val) : Val :=
  match to_jsonable v with
  | Val.obj fs => Val.obj fs
  | j => Val.obj [("result", j), ("timestamp", Val.str "")]

/-- One entry of `self.active_analyses` (the in-process job registry):
the fields of the stored dict that the modelled code reads.  The nested
`request` object contributes `evidence_id` and `analysis_type`;
`started_at`/`completed_at` record only key presence (timestamp values
are abstracted). -/
structure RegistryEntry where
  evidence_id : String
  analysis_type : String
  status : String
  progress : Int
  error_message : Option String
  results : Option Val
  started_at : Bool
  completed_at : Bool

/-- The Redis `status:{id}` document written by `_cache_analysis_status`
(lines 534-558): status, progress, optional evidence id
(`updated_at`/`estimated_completion` abstracted; `estimated_completion`
is `None` at every modelled call site). -/
structure CacheStatusDoc where
  status : String
  progress : Int
  evidence_id : Option String

/-- A Mongo `analysis_requests` document as read back by
`_get_status_from_db`: `status` is always present (set by both
`_store_analysis_request` and the `_update_status_in_db` upsert);
`progress`, `error_message` and `evidence_id` may be absent. -/
structure DbRequestDoc where
  status : String
  progress : Option Int
  error_message : Option String
  evidence_id : Option String

/-- The whole observable state of `AnalysisService` plus its three
adapters.  `cacheReady` is `redis_cache.is_ready`, `dbReady` is
`db_service.is_ready`, `mqConnected` is `message_queue._connected`.
`dbDetails` keeps, per inserted `analysis_details` document, the value of
its `results` field (documents are appended by `insert_one` and looked up
first-match by `find_one`). -/
structure ServiceState where
  cacheReady : Bool
  dbReady : Bool
  mqConnected : Bool
  cacheStatus : List (String × CacheStatusDoc)
  cacheResults : List (String × Val)
  dbRequests : List (String × DbRequestDoc)
  dbDetails : List (String × Val)
  registry : List (String × RegistryEntry)
  totalSubmitted : Nat
  totalCompleted : Nat
  totalFailed : Nat

/-- `_cache_analysis_status` (lines 534-558): write the status document to
Redis when the cache is ready, otherwise do nothing. -/
def cache_analysis_status (s : ServiceState) (analysis_id status : String)
    (progress : Int) (evidence_id : Option String) : ServiceState :=
  if s.cacheReady then
    let doc : CacheStatusDoc :=
      { status := status, progress := progress, evidence_id := evidence_id }
    { s with cacheStatus := aset analysis_id doc s.cacheStatus }
  else s

/-- `_store_analysis_results` (lines 632-656): serialize, cache under
`results:{id}` when the cache is ready, then `insert_one` an
`analysis_details` document when the durable store is ready. -/
def store_analysis_results (s : ServiceState) (analysis_id : String)
    (results : Val) : ServiceState :=
  let serialized := serialize_analysis_result results
  let s1 :=
    if s.cacheReady then
      { s with cacheResults := aset analysis_id serialized s.cacheResults }
    else s
  if s1.dbReady then
    { s1 with dbDetails := s1.dbDetails ++ [(analysis_id, serialized)] }
  else s1

/-- `_update_status_in_db` (lines 870-884): `update_one` on
`analysis_requests` with `upsert=True`, `$set`-ing `status`, plus
`progress` when supplied and `error_message` when truthy. -/
def update_status_in_db (s : ServiceState) (analysis_id status : String)
    (progress : Option Int) (error_message : Option String) : ServiceState :=
  let doc0 : DbRequestDoc :=
    match afind analysis_id s.dbRequests with
    | some d => d
    | none => { status := status, progress := none, error_message := none, evidence_id := none }
  let doc1 := { doc0 with status := status }
  let doc2 :=
    match progress with
    | none => doc1
    | some p => { doc1 with progress := some p }
  let doc3 :=
    if truthyOptStr error_message then { doc2 with error_message := error_message } else doc2
  { s with dbRequests := aset analysis_id doc3 s.dbRequests }

/-- The entry-level mutation of `update_analysis_status` step 1 (lines
324-337): overwrite `status`, overwrite `progress` when supplied, set
`error_message` when truthy, set `started_at` on the first `processing`,
set `completed_at` on `completed`/`failed`. -/
def updated_entry (a0 : RegistryEntry) (status : String)
    (progress : Option Int) (error_message : Option String) : RegistryEntry :=
  let a1 := { a0 with status := status }
  let a2 :=
    match progress with
    | none => a1
    | some p => { a1 with progress := p }
  let a3 :=
    if truthyOptStr error_message then { a2 with error_message := error_message } else a2
  let a4 :=
    if status == "processing" && !a3.started_at then { a3 with started_at := true } else a3
  if status == "completed" || status == "failed" then { a4 with completed_at := true } else a4

/-- `update_analysis_status`, step 1 (lines 322-343): mutate the registry
entry when present, and on `completed`/`failed` bump the matching queue
metric (lines 339-343). -/
def update_registry_step (s : ServiceState) (analysis_id status : String)
    (progress : Option Int) (error_message : Option String) : ServiceState :=
  match afind analysis_id s.registry with
  | none => s
  | some a0 =>
    let a := updated_entry a0 status progress error_message
    let s1 := { s with registry := aset analysis_id a s.registry }
    if status == "completed" then { s1 with totalCompleted := s1.totalCompleted + 1 }
    else if status == "failed" then { s1 with totalFailed := s1.totalFailed + 1 }
    else s1

/-- `update_analysis_status`, step 2 (lines 345-357): when a truthy
result is supplied together with status `completed`, persist it via
`_store_analysis_results` and keep an in-memory copy on the registry
entry when present. -/
def store_results_step (s : ServiceState) (analysis_id status : String)
    (results : Option Val) : ServiceState :=
  match results with
  | none => s
  | some r =>
    if truthy r && status == "completed" then
      let s1 := store_analysis_results s analysis_id r
      match afind analysis_id s1.registry with
      | some a =>
        let a2 := { a with results := some (serialize_analysis_result r) }
        { s1 with registry := aset analysis_id a2 s1.registry }
      | none => s1
    else s

/-- `update_analysis_status` (lines 303-384): registry update, then
result persistence (for completed updates), then the durable-store
upsert (when ready), then the cache write with `progress or 0` and the
evidence id recovered from the registry entry when present. -/
def update_analysis_status (s : ServiceState) (analysis_id status : String)
    (progress : Option Int) (error_message : Option String)
    (results : Option Val) : ServiceState :=
  let s1 := update_registry_step s analysis_id status progress error_message
  let s2 := store_results_step s1 analysis_id status results
  let s3 :=
    if s2.dbReady then update_status_in_db s2 analysis_id status progress error_message
    else s2
  let evidence_id_cached := (afind analysis_id s3.registry).map (fun a => a.evidence_id)
  cache_analysis_status s3 analysis_id status
    (match progress with
     | none => 0
     | some p => p)
    evidence_id_cached

/-- `submit_analysis` (lines 121-176), restricted to the persistence part
the claims read back: `insert_one` the request document (status
`pending`, no `progress` field) when the durable store is ready, cache
the initial `pending`/0 status with the evidence id, insert the registry
entry, bump the submitted counter.  The broker publish and the response
value are not modelled. -/
def submit_analysis (s : ServiceState) (analysis_id evidence_id analysis_type : String) :
    ServiceState :=
  let s1 :=
    if s.dbReady then
      { s with dbRequests := s.dbRequests ++
          [(analysis_id,
            { status := "pending", progress := none, error_message := none,
              evidence_id := some evidence_id })] }
    else s
  let s2 := cache_analysis_status s1 analysis_id "pending" 0 (some evidence_id)
  let entry : RegistryEntry :=
    { evidence_id := evidence_id, analysis_type := analysis_type,
      status := "pending", progress := 0, error_message := none,
      results := none, started_at := false, completed_at := false }
  let s3 := { s2 with registry := aset analysis_id entry s2.registry }
  { s3 with totalSubmitted := s3.totalSubmitted + 1 }

/-- Membership of the five `AnalysisStatusEnum` values; constructing the
enum from any other string raises `ValueError`, which every read path
catches. -/
def validStatus (st : String) : Bool :=
  st == "pending" || st == "processing" || st == "completed" || st == "failed" ||
    st == "cancelled"

/-- The `AnalysisStatus` response model, restricted to the fields the
modelled code writes (datetime fields abstracted). -/
structure AnalysisStatusR where
  analysis_id : String
  evidence_id : String
  status : String
  progress : Int
  error_message : Option String

/-- `_get_cached_status` (lines 560-590): when the cache is ready and has
the key, rebuild the response; the evidence id falls back to the registry
entry and then to the empty string; an invalid status value makes the
enum constructor raise, which is caught and turned into `None`. -/
def get_cached_status (s : ServiceState) (analysis_id : String) : Option AnalysisStatusR :=
  if s.cacheReady then
    match afind analysis_id s.cacheStatus with
    | none => none
    | some d =>
      if validStatus d.status then
        let ev0 :=
          match d.evidence_id with
          | some e => e
          | none => ""
        let ev1 :=
          if ev0 == "" then
            match afind analysis_id s.registry with
            | some a => a.evidence_id
            | none => ev0
          else ev0
        some { analysis_id := analysis_id, evidence_id := ev1, status := d.status,
               progress := d.progress, error_message := none }
      else none
  else none

/-- `_get_status_from_db` (lines 812-837): `find_one` on
`analysis_requests`; absent fields default (`progress` 0, `evidence_id`
empty); an invalid status raises and is caught, yielding `None`. -/
def get_status_from_db (s : ServiceState) (analysis_id : String) : Option AnalysisStatusR :=
  match afind analysis_id s.dbRequests with
  | none => none
  | some d =>
    if validStatus d.status then
      some { analysis_id := analysis_id,
             evidence_id :=
               (match d.evidence_id with
                | some e => e
                | none => ""),
             status := d.status,
             progress :=
               (match d.progress with
                | none => 0
                | some p => p),
             error_message := none }
    else none

/-- `get_analysis_status` (lines 178-215): cache first; on a cache miss
the durable-store answer is returned directly whenever the store is
ready (`return await self._get_status_from_db(...)`); the registry is
consulted only when the store is not ready; an invalid registry status
raises into the outer handler, yielding `None`. -/
def get_analysis_status (s : ServiceState) (analysis_id : String) : Option AnalysisStatusR :=
  match get_cached_status s analysis_id with
  | some st => some st
  | none =>
    if s.dbReady then get_status_from_db s analysis_id
    else
      match afind analysis_id s.registry with
      | some a =>
        if validStatus a.status then
          some { analysis_id := analysis_id, evidence_id := a.evidence_id,
                 status := a.status, progress := a.progress,
                 error_message := a.error_message }
        else none
      | none => none

/-- `_get_results_from_db` (lines 839-849): `find_one` on
`analysis_details`, strip `_id`, then `result.get("results") or result` —
the stored results when truthy, otherwise the whole document (its
abstracted form). -/
def get_results_from_db (s : ServiceState) (analysis_id : String) : Option Val :=
  match afind analysis_id s.dbDetails with
  | none => none
  | some r =>
    some (if truthy r then r
          else Val.obj [("analysis_id", Val.str analysis_id), ("results", r)])

/-- `get_analysis_results` (lines 217-267): `None` unless the status read
reports `completed`; then the cached JSON string (always non-empty,
hence truthy) parsed back, else the durable-store answer returned
directly when the store is ready, else the registry's in-memory copy. -/
def get_analysis_results (s : ServiceState) (analysis_id : String) : Option Val :=
  match get_analysis_status s analysis_id with
  | none => none
  | some st =>
    if st.status != "completed" then none
    else
      match (if s.cacheReady then afind analysis_id s.cacheResults else none) with
      | some r => some r
      | none =>
        if s.dbReady then get_results_from_db s analysis_id
        else
          match afind analysis_id s.registry with
          | some a =>
            (match a.results with
             | some r => some r
             | none => none)
          | none => none

/-- `cancel_analysis` (lines 386-418): `False` for an unknown id or a
terminal status; otherwise update to `cancelled` and delete the registry
entry. -/
def cancel_analysis (s : ServiceState) (analysis_id : String) : Bool × ServiceState :=
  match afind analysis_id s.registry with
  | none => (false, s)
  | some a =>
    if a.status == "completed" || a.status == "failed" || a.status == "cancelled" then
      (false, s)
    else
      let s1 := update_analysis_status s analysis_id "cancelled" none none none
      (true, { s1 with registry := aremove analysis_id s1.registry })

/-- Outcome of the `/results/{analysis_id}` route. -/
inductive RouterResult where
  | ok : Val → RouterResult
  | http404 : RouterResult

/-- `get_analysis_results` route (analysis_router.py lines 157-187):
HTTP 404 whenever the service value is falsy (`if not results:`). -/
def router_get_analysis_results (s : ServiceState) (analysis_id : String) : RouterResult :=
  match get_analysis_results s analysis_id with
  | none => RouterResult.http404
  | some r => if truthy r then RouterResult.ok r else RouterResult.http404

/-- Python `round` with no digits argument: round half to even. -/
def pyRound (q : ℚ) : Int :=
  let f := Int.floor q
  let frac := q - f
  if frac < 1 / 2 then f
  else if 1 / 2 < frac then f + 1
  else if f % 2 = 0 then f else f + 1

/-- `isinstance(x, (int, float))` plus the numeric value: Python `bool`
is a subclass of `int`, so `True`/`False` pass the check as 1/0. -/
def numValue : Val → Option ℚ
  | Val.num q => some q
  | Val.bool b => some (if b then 1 else 0)
  | _ => none

/-- The `analysisResults` document `_build_evidence_analysis_payload`
produces (the wire payload wraps it as
`analysisResults := this`); findings are JSON objects, metadata an
ordered dict. -/
structure AnalysisResultsPayload where
  confidence : Int
  anomaliesDetected : Bool
  findings : List Val
  metadata : List (String × Val)

/-- `_build_evidence_analysis_payload` (lines 726-810).  `Except.error`
models an exception escaping the method (a `.get` on a truthy non-dict
indicator field); the caller catches it and substitutes the fallback
payload.  The `completedAt` timestamp value is abstracted as the empty
string. -/
def build_evidence_analysis_payload (registry : List (String × RegistryEntry))
    (analysis_id evidence_id : String) (results : Val) :
    Except String AnalysisResultsPayload := do
  let result_obj : Val :=
    if isObj results then results else serialize_analysis_result results
  -- Confidence normalisation (0..1 -> 0..100), read from the top-level
  -- `confidence_score` field only.
  let confidence : Int :=
    match (objGet result_obj "confidence_score").bind numValue with
    | some q =>
      if q ≤ 1 then max 0 (min 100 (pyRound (q * 100)))
      else max 0 (min 100 (pyRound q))
    | none => 0
  -- Detect anomalies across types.
  let img := orEmptyDict (objGet result_obj "manipulation_detection")
  let imgIsManip ← dictGet img "is_manipulated"
  let anomalies1 := truthy (imgIsManip.getD (Val.bool false))
  let vid := orEmptyDict (objGet result_obj "deepfake_detection")
  let vidIsDeep ← dictGet vid "is_deepfake"
  let anomalies2 := anomalies1 || truthy (vidIsDeep.getD (Val.bool false))
  let doc := orEmptyDict (objGet result_obj "authenticity_analysis")
  let anomalies3 :=
    if isObj doc && hasKey doc "is_authentic" then
      anomalies2 || !truthy ((objGet doc "is_authentic").getD (Val.bool true))
    else anomalies2
  let aud := orEmptyDict (objGet result_obj "authenticity_analysis")
  let anomalies :=
    if isObj aud && hasKey aud "is_authentic" then
      anomalies3 || !truthy ((objGet aud "is_authentic").getD (Val.bool true))
    else anomalies3
  -- Findings, in source order: image, video, document, audio.
  let findingsImg ←
    if truthy img then do
      let mt ← dictGet img "manipulation_type"
      let mtv := mt.getD Val.null
      if truthy mtv then do
        let conf ← dictGet img "confidence"
        pure [Val.obj [("type", Val.str "image_manipulation"),
                       ("manipulationType", mtv),
                       ("confidence", conf.getD Val.null)]]
      else pure []
    else pure []
  let findingsVid ←
    if truthy vid then do
      let isd ← dictGet vid "is_deepfake"
      if truthy (isd.getD Val.null) then do
        let conf ← dictGet vid "confidence"
        pure [Val.obj [("type", Val.str "video_deepfake"),
                       ("confidence", conf.getD Val.null)]]
      else pure []
    else pure []
  let findingsDoc :=
    if isObj doc && hasKey doc "is_authentic" &&
        !truthy ((objGet doc "is_authentic").getD (Val.bool true)) then
      [Val.obj [("type", Val.str "document_forgery"),
                ("confidence", (objGet doc "confidence").getD Val.null)]]
    else []
  let findingsAud :=
    if isObj aud && hasKey aud "is_authentic" &&
        !truthy ((objGet aud "is_authentic").getD (Val.bool true)) then
      [Val.obj [("type", Val.str "audio_tampering"),
                ("confidence", (objGet aud "confidence").getD Val.null)]]
    else []
  let findings := findingsImg ++ findingsVid ++ findingsDoc ++ findingsAud
  -- Analysis type from the registry entry, when known and truthy.
  let analysis_type : Option String :=
    (afind analysis_id registry).map (fun a => a.analysis_type)
  let meta0 : List (String × Val) :=
    [("analysisId", Val.str analysis_id),
     ("evidenceId", Val.str evidence_id),
     ("completedAt", Val.str "")]
  let meta :=
    match analysis_type with
    | some t => if t != "" then meta0 ++ [("analysisType", Val.str t)] else meta0
    | none => meta0
  pure { confidence := confidence, anomaliesDetected := anomalies,
         findings := findings, metadata := meta }

/-- The payload `_send_results_via_http` (lines 672-724) actually posts:
the built payload, or — when `_build_evidence_analysis_payload` raises —
the fallback shape with an explicit `error` marker in its metadata.  The
POST itself swallows every transport or HTTP error, so this function is
total: delivery never raises past packaging. -/
def http_callback_payload (registry : List (String × RegistryEntry))
    (analysis_id evidence_id : String) (results : Val) : AnalysisResultsPayload :=
  match build_evidence_analysis_payload registry analysis_id evidence_id results with
  | Except.ok p => p
  | Except.error _ =>
    { confidence := 0, anomaliesDetected := false, findings := [],
      metadata := [("analysisId", Val.str analysis_id),
                   ("evidenceId", Val.str evidence_id),
                   ("error", Val.str "payload_build_failed")] }

/-- Modelled from the source: `MessageQueueService` (message_queue.py)
defines `publish_analysis_task` and `publish_analysis_result` but no
`publish_message`, so the call
`self.mq_manager.publish_message(...)` in `_send_results_via_mq`
(analysis_service.py lines 658-670) raises `AttributeError` whenever it
executes. -/
def publish_message_call : Except String Unit :=
  Except.error "AttributeError: MessageQueueService object has no attribute publish_message"

/-- `_send_results_via_mq` (lines 658-670): guarded by `_mq_ready`; when
connected it invokes the missing `publish_message` attribute and hence
raises; it has no exception handler of its own. -/
def send_results_via_mq (mqConnected : Bool) : Except String Unit :=
  if mqConnected then publish_message_call else Except.ok ()

/-- Which delivery channels `send_results_to_evidence_service` actually
attempted, and the HTTP payload it posted (when it got that far). -/
structure DeliveryTrace where
  mqPushAttempted : Bool
  httpPushAttempted : Bool
  httpPayload : Option AnalysisResultsPayload
  errorLogged : Bool

/-- `send_results_to_evidence_service` (lines 474-509): serialize (its
normalisation helpers swallow their own errors), push via the broker
when connected, then push via HTTP — all inside one `try`, whose
`except` only logs.  An exception raised by the broker push therefore
skips the HTTP push. -/
def send_results_to_evidence_service (registry : List (String × RegistryEntry))
    (mqConnected : Bool) (analysis_id evidence_id : String) (results : Val) :
    DeliveryTrace :=
  let serialized := serialize_analysis_result results
  if mqConnected then
    match send_results_via_mq mqConnected with
    | Except.error _ =>
      { mqPushAttempted := true, httpPushAttempted := false,
        httpPayload := none, errorLogged := true }
    | Except.ok _ =>
      { mqPushAttempted := true, httpPushAttempted := true,
        httpPayload := some (http_callback_payload registry analysis_id evidence_id serialized),
        errorLogged := false }
  else
    { mqPushAttempted := false, httpPushAttempted := true,
      httpPayload := some (http_callback_payload registry analysis_id evidence_id serialized),
      errorLogged := false }

/-! Association-list and step-preservation lemmas. -/

@[simp]
theorem afind_aset_self {α : Type} (k : String) (v : α) (l : List (String × α)) :
    afind k (aset k v l) = some v := by
  induction l with
  | nil => simp [afind, aset]
  | cons hd tl ih =>
    by_cases h : k == hd.1
    · simp [afind, aset, h]
    · simp [afind, aset, h, ih]

theorem afind_append_single_of_none {α : Type} {k : String} {l : List (String × α)}
    (h : afind k l = none) (v : α) : afind k (l ++ [(k, v)]) = some v := by
  induction l with
  | nil => simp [afind]
  | cons hd tl ih =>
    by_cases hk : k == hd.1
    · simp [afind, hk] at h
    · simp [afind, hk] at h ⊢
      exact ih h

@[simp]
theorem update_status_in_db_cacheReady (s : ServiceState) (i st : String)
    (p : Option Int) (em : Option String) :
    (update_status_in_db s i st p em).cacheReady = s.cacheReady := rfl

@[simp]
theorem update_status_in_db_dbReady (s : ServiceState) (i st : String)
    (p : Option Int) (em : Option String) :
    (update_status_in_db s i st p em).dbReady = s.dbReady := rfl

@[simp]
theorem update_status_in_db_registry (s : ServiceState) (i st : String)
    (p : Option Int) (em : Option String) :
    (update_status_in_db s i st p em).registry = s.registry := rfl

@[simp]
theorem update_status_in_db_cacheStatus (s : ServiceState) (i st : String)
    (p : Option Int) (em : Option String) :
    (update_status_in_db s i st p em).cacheStatus = s.cacheStatus := rfl

@[simp]
theorem update_status_in_db_cacheResults (s : ServiceState) (i st : String)
    (p : Option Int) (em : Option String) :
    (update_status_in_db s i st p em).cacheResults = s.cacheResults := rfl

@[simp]
theorem update_status_in_db_dbDetails (s : ServiceState) (i st : String)
    (p : Option Int) (em : Option String) :
    (update_status_in_db s i st p em).dbDetails = s.dbDetails := rfl

@[simp]
theorem update_registry_step_cacheReady (s : ServiceState) (i st : String)
    (p : Option Int) (em : Option String) :
    (update_registry_step s i st p em).cacheReady = s.cacheReady := by
  unfold update_registry_step
  cases afind i s.registry <;> dsimp only <;> (repeat' split) <;> rfl

@[simp]
theorem update_registry_step_dbReady (s : ServiceState) (i st : String)
    (p : Option Int) (em : Option String) :
    (update_registry_step s i st p em).dbReady = s.dbReady := by
  unfold update_registry_step
  cases afind i s.registry <;> dsimp only <;> (repeat' split) <;> rfl

@[simp]
theorem update_registry_step_cacheStatus (s : ServiceState) (i st : String)
    (p : Option Int) (em : Option String) :
    (update_registry_step s i st p em).cacheStatus = s.cacheStatus := by
  unfold update_registry_step
  cases afind i s.registry <;> dsimp only <;> (repeat' split) <;> rfl

@[simp]
theorem update_registry_step_cacheResults (s : ServiceState) (i st : String)
    (p : Option Int) (em : Option String) :
    (update_registry_step s i st p em).cacheResults = s.cacheResults := by
  unfold update_registry_step
  cases afind i s.registry <;> dsimp only <;> (repeat' split) <;> rfl

@[simp]
theorem update_registry_step_dbRequests (s : ServiceState) (i st : String)
    (p : Option Int) (em : Option String) :
    (update_registry_step s i st p em).dbRequests = s.dbRequests := by
  unfold update_registry_step
  cases afind i s.registry <;> dsimp only <;> (repeat' split) <;> rfl

@[simp]
theorem update_registry_step_dbDetails (s : ServiceState) (i st : String)
    (p : Option Int) (em : Option String) :
    (update_registry_step s i st p em).dbDetails = s.dbDetails := by
  unfold update_registry_step
  cases afind i s.registry <;> dsimp only <;> (repeat' split) <;> rfl

theorem update_registry_step_registry_of_some {s : ServiceState} {i : String}
    {a0 : RegistryEntry} (st : String) (p : Option Int) (em : Option String)
    (h : afind i s.registry = some a0) :
    (update_registry_step s i st p em).registry =
      aset i (updated_entry a0 st p em) s.registry := by
  unfold update_registry_step
  rw [h]
  dsimp only
  (repeat' split) <;> rfl

theorem update_registry_step_registry_of_none {s : ServiceState} {i : String}
    (st : String) (p : Option Int) (em : Option String)
    (h : afind i s.registry = none) :
    (update_registry_step s i st p em).registry = s.registry := by
  unfold update_registry_step
  rw [h]

theorem updated_entry_status (a0 : RegistryEntry) (st : String)
    (p : Option Int) (em : Option String) :
    (updated_entry a0 st p em).status = st := by
  unfold updated_entry
  cases p <;> dsimp only <;> (repeat' split) <;> rfl

theorem updated_entry_progress_some (a0 : RegistryEntry) (st : String)
    (p : Int) (em : Option String) :
    (updated_entry a0 st (some p) em).progress = p := by
  unfold updated_entry
  dsimp only
  (repeat' split) <;> rfl

@[simp]
theorem cache_analysis_status_cacheReady (s : ServiceState) (i st : String)
    (p : Int) (ev : Option String) :
    (cache_analysis_status s i st p ev).cacheReady = s.cacheReady := by
  unfold cache_analysis_status; split <;> rfl

@[simp]
theorem cache_analysis_status_dbReady (s : ServiceState) (i st : String)
    (p : Int) (ev : Option String) :
    (cache_analysis_status s i st p ev).dbReady = s.dbReady := by
  unfold cache_analysis_status; split <;> rfl

@[simp]
theorem cache_analysis_status_registry (s : ServiceState) (i st : String)
    (p : Int) (ev : Option String) :
    (cache_analysis_status s i st p ev).registry = s.registry := by
  unfold cache_analysis_status; split <;> rfl

@[simp]
theorem cache_analysis_status_cacheResults (s : ServiceState) (i st : String)
    (p : Int) (ev : Option String) :
    (cache_analysis_status s i st p ev).cacheResults = s.cacheResults := by
  unfold cache_analysis_status; split <;> rfl

@[simp]
theorem cache_analysis_status_dbRequests (s : ServiceState) (i st : String)
    (p : Int) (ev : Option String) :
    (cache_analysis_status s i st p ev).dbRequests = s.dbRequests := by
  unfold cache_analysis_status; split <;> rfl

@[simp]
theorem cache_analysis_status_dbDetails (s : ServiceState) (i st : String)
    (p : Int) (ev : Option String) :
    (cache_analysis_status s i st p ev).dbDetails = s.dbDetails := by
  unfold cache_analysis_status; split <;> rfl

theorem cache_analysis_status_cacheStatus_of_ready {s : ServiceState} (i st : String)
    (p : Int) (ev : Option String) (h : s.cacheReady = true) :
    (cache_analysis_status s i st p ev).cacheStatus =
      aset i { status := st, progress := p, evidence_id := ev } s.cacheStatus := by
  unfold cache_analysis_status
  rw [h]
  simp

theorem cache_analysis_status_cacheStatus_of_not_ready {s : ServiceState} (i st : String)
    (p : Int) (ev : Option String) (h : s.cacheReady = false) :
    (cache_analysis_status s i st p ev).cacheStatus = s.cacheStatus := by
  unfold cache_analysis_status
  rw [h]
  rfl

@[simp]
theorem store_analysis_results_cacheReady (s : ServiceState) (i : String) (r : Val) :
    (store_analysis_results s i r).cacheReady = s.cacheReady := by
  unfold store_analysis_results; dsimp only; split <;> split <;> rfl

@[simp]
theorem store_analysis_results_dbReady (s : ServiceState) (i : String) (r : Val) :
    (store_analysis_results s i r).dbReady = s.dbReady := by
  unfold store_analysis_results; dsimp only; split <;> split <;> rfl

@[simp]
theorem store_analysis_results_registry (s : ServiceState) (i : String) (r : Val) :
    (store_analysis_results s i r).registry = s.registry := by
  unfold store_analysis_results; dsimp only; split <;> split <;> rfl

@[simp]
theorem store_analysis_results_cacheStatus (s : ServiceState) (i : String) (r : Val) :
    (store_analysis_results s i r).cacheStatus = s.cacheStatus := by
  unfold store_analysis_results; dsimp only; split <;> split <;> rfl

@[simp]
theorem store_analysis_results_dbRequests (s : ServiceState) (i : String) (r : Val) :
    (store_analysis_results s i r).dbRequests = s.dbRequests := by
  unfold store_analysis_results; dsimp only; split <;> split <;> rfl

theorem store_analysis_results_cacheResults_of_ready {s : ServiceState} (i : String)
    (r : Val) (h : s.cacheReady = true) :
    (store_analysis_results s i r).cacheResults =
      aset i (serialize_analysis_result r) s.cacheResults := by
  by_cases hdb : s.dbReady <;> simp [store_analysis_results, h, hdb]

theorem store_analysis_results_cacheResults_of_not_ready {s : ServiceState} (i : String)
    (r : Val) (h : s.cacheReady = false) :
    (store_analysis_results s i r).cacheResults = s.cacheResults := by
  by_cases hdb : s.dbReady <;> simp [store_analysis_results, h, hdb]

theorem store_analysis_results_dbDetails_of_ready {s : ServiceState} (i : String)
    (r : Val) (h : s.dbReady = true) :
    (store_analysis_results s i r).dbDetails =
      s.dbDetails ++ [(i, serialize_analysis_result r)] := by
  unfold store_analysis_results
  dsimp only
  split <;> simp [h]

theorem store_analysis_results_dbDetails_of_not_ready {s : ServiceState} (i : String)
    (r : Val) (h : s.dbReady = false) :
    (store_analysis_results s i r).dbDetails = s.dbDetails := by
  unfold store_analysis_results
  dsimp only
  split <;> simp [h]

@[simp]
theorem store_results_step_cacheReady (s : ServiceState) (i st : String) (r : Option Val) :
    (store_results_step s i st r).cacheReady = s.cacheReady := by
  unfold store_results_step
  cases r <;> dsimp only <;> (repeat' split) <;> simp

@[simp]
theorem store_results_step_dbReady (s : ServiceState) (i st : String) (r : Option Val) :
    (store_results_step s i st r).dbReady = s.dbReady := by
  unfold store_results_step
  cases r <;> dsimp only <;> (repeat' split) <;> simp

@[simp]
theorem store_results_step_cacheStatus (s : ServiceState) (i st : String) (r : Option Val) :
    (store_results_step s i st r).cacheStatus = s.cacheStatus := by
  unfold store_results_step
  cases r <;> dsimp only <;> (repeat' split) <;> simp

@[simp]
theorem store_results_step_dbRequests (s : ServiceState) (i st : String) (r : Option Val) :
    (store_results_step s i st r).dbRequests = s.dbRequests := by
  unfold store_results_step
  cases r <;> dsimp only <;> (repeat' split) <;> simp

/-- The registry-entry fields `update_analysis_status` writes through
step 1 (step 2 only touches `results`). -/
def regFields (a : RegistryEntry) : String × Int × Option String :=
  (a.status, a.progress, a.error_message)

theorem store_results_step_lookup_fields (s : ServiceState) (i st : String)
    (r : Option Val) :
    (afind i (store_results_step s i st r).registry).map regFields =
      (afind i s.registry).map regFields := by
  unfold store_results_step
  cases r with
  | none => rfl
  | some rv =>
    dsimp only
    split
    · rw [store_analysis_results_registry]
      rcases h : afind i s.registry with _ | a <;>
        simp [store_analysis_results_registry, regFields, h]
    · rfl

theorem store_results_step_registry_of_none {s : ServiceState} {i : String}
    (st : String) (r : Option Val) (h : afind i s.registry = none) :
    (store_results_step s i st r).registry = s.registry := by
  unfold store_results_step
  cases r with
  | none => rfl
  | some rv =>
    dsimp only
    split
    · rw [store_analysis_results_registry, h]
      dsimp only
      exact store_analysis_results_registry s i rv
    · rfl

theorem store_results_step_registry_completed {s : ServiceState} {i : String}
    {a : RegistryEntry} {rv : Val} (h : afind i s.registry = some a)
    (ht : truthy rv = true) :
    (store_results_step s i "completed" (some rv)).registry =
      aset i { a with results := some (serialize_analysis_result rv) } s.registry := by
  unfold store_results_step
  dsimp only
  rw [store_analysis_results_registry, h]
  simp [ht, store_analysis_results_registry]

@[simp]
theorem update_analysis_status_cacheReady (s : ServiceState) (i st : String)
    (p : Option Int) (em : Option String) (r : Option Val) :
    (update_analysis_status s i st p em r).cacheReady = s.cacheReady := by
  unfold update_analysis_status
  dsimp only
  rw [cache_analysis_status_cacheReady]
  split <;> simp

@[simp]
theorem update_analysis_status_dbReady (s : ServiceState) (i st : String)
    (p : Option Int) (em : Option String) (r : Option Val) :
    (update_analysis_status s i st p em r).dbReady = s.dbReady := by
  unfold update_analysis_status
  dsimp only
  rw [cache_analysis_status_dbReady]
  split <;> simp

theorem update_analysis_status_lookup_fields (s : ServiceState) (i st : String)
    (p : Option Int) (em : Option String) (r : Option Val) :
    (afind i (update_analysis_status s i st p em r).registry).map regFields =
      (afind i (update_registry_step s i st p em).registry).map regFields := by
  unfold update_analysis_status
  dsimp only
  rw [cache_analysis_status_registry]
  split
  · rw [update_status_in_db_registry]
    exact store_results_step_lookup_fields _ i st r
  · exact store_results_step_lookup_fields _ i st r

theorem update_analysis_status_registry_status {s : ServiceState} {i : String}
    {a : RegistryEntry} (st : String) (p : Option Int) (em : Option String)
    (r : Option Val) (h : afind i s.registry = some a) :
    (afind i (update_analysis_status s i st p em r).registry).map
        RegistryEntry.status = some st := by
  have hf := update_analysis_status_lookup_fields s i st p em r
  rw [update_registry_step_registry_of_some st p em h, afind_aset_self] at hf
  rcases ho : afind i (update_analysis_status s i st p em r).registry with _ | b
  · rw [ho] at hf
    simp at hf
  · rw [ho] at hf
    have hf2 : regFields b = regFields (updated_entry a st p em) := by
      simpa using hf
    have hb : b.status = st := by
      have h1 := congrArg Prod.fst hf2
      simpa [regFields, updated_entry_status] using h1
    simp [hb]

theorem update_analysis_status_registry_progress {s : ServiceState} {i : String}
    {a : RegistryEntry} (st : String) (p : Int) (em : Option String)
    (r : Option Val) (h : afind i s.registry = some a) :
    (afind i (update_analysis_status s i st (some p) em r).registry).map
        RegistryEntry.progress = some p := by
  have hf := update_analysis_status_lookup_fields s i st (some p) em r
  rw [update_registry_step_registry_of_some st (some p) em h, afind_aset_self] at hf
  rcases ho : afind i (update_analysis_status s i st (some p) em r).registry with _ | b
  · rw [ho] at hf
    simp at hf
  · rw [ho] at hf
    have hf2 : regFields b = regFields (updated_entry a st (some p) em) := by
      simpa using hf
    have hb : b.progress = p := by
      have h1 := congrArg (fun x => x.2.1) hf2
      simpa [regFields, updated_entry_progress_some] using h1
    simp [hb]

theorem update_status_in_db_lookup_doc (s : ServiceState) (i st : String)
    (p : Option Int) (em : Option String) :
    (afind i (update_status_in_db s i st p em).dbRequests).map DbRequestDoc.status =
      some st := by
  unfold update_status_in_db
  dsimp only
  rw [afind_aset_self]
  cases afind i s.dbRequests <;> cases p <;> dsimp only <;> (repeat' split) <;> rfl

theorem update_analysis_status_dbRequests_doc {s : ServiceState} (i st : String)
    (p : Option Int) (em : Option String) (r : Option Val) (hdb : s.dbReady = true) :
    (afind i (update_analysis_status s i st p em r).dbRequests).map DbRequestDoc.status =
      some st := by
  unfold update_analysis_status
  dsimp only
  rw [cache_analysis_status_dbRequests]
  have h2 : (store_results_step (update_registry_step s i st p em) i st r).dbReady = true := by
    simp [hdb]
  rw [if_pos h2]
  exact update_status_in_db_lookup_doc _ i st p em

theorem update_analysis_status_cache_doc {s : ServiceState} (i st : String)
    (p : Option Int) (em : Option String) (r : Option Val) (h : s.cacheReady = true) :
    ∃ ev, afind i (update_analysis_status s i st p em r).cacheStatus =
      some { status := st,
             progress :=
               (match p with
                | none => 0
                | some q => q),
             evidence_id := ev } := by
  unfold update_analysis_status
  dsimp only
  split
  · rw [cache_analysis_status_cacheStatus_of_ready _ st _ _ (by simp [h]), afind_aset_self]
    exact ⟨_, rfl⟩
  · rw [cache_analysis_status_cacheStatus_of_ready _ st _ _ (by simp [h]), afind_aset_self]
    exact ⟨_, rfl⟩

theorem get_cached_status_of_not_ready {s : ServiceState} (i : String)
    (h : s.cacheReady = false) : get_cached_status s i = none := by
  unfold get_cached_status
  rw [h]
  rfl

theorem get_cached_status_status_of_doc {s : ServiceState} {i st : String} {p : Int}
    {ev : Option String} (hready : s.cacheReady = true)
    (hdoc : afind i s.cacheStatus = some { status := st, progress := p, evidence_id := ev })
    (hst : validStatus st = true) :
    (get_cached_status s i).map AnalysisStatusR.status = some st := by
  unfold get_cached_status
  rw [hready, hdoc]
  simp only [if_true]
  rw [if_pos hst]
  cases ev <;> dsimp only <;> (repeat' split) <;> rfl

theorem get_status_from_db_status_of_doc {s : ServiceState} {i : String} {doc : DbRequestDoc}
    (hdoc : afind i s.dbRequests = some doc) (hst : validStatus doc.status = true) :
    (get_status_from_db s i).map AnalysisStatusR.status = some doc.status := by
  unfold get_status_from_db
  rw [hdoc]
  dsimp only
  rw [if_pos hst]
  rfl

theorem truthy_serialize {v : Val} (h : truthy v = true) :
    truthy (serialize_analysis_result v) = true := by
  unfold serialize_analysis_result to_jsonable
  cases v <;> simp_all [truthy]

theorem store_results_step_cacheResults_completed {s : ServiceState} {i : String}
    {R : Val} (hc : s.cacheReady = true) (ht : truthy R = true) :
    (store_results_step s i "completed" (some R)).cacheResults =
      aset i (serialize_analysis_result R) s.cacheResults := by
  unfold store_results_step
  dsimp only
  rw [if_pos (by simp [ht])]
  rcases hsr : afind i (store_analysis_results s i R).registry with _ | a <;>
    simp [store_analysis_results_cacheResults_of_ready _ _ hc]

theorem update_analysis_status_cacheResults_completed {s : ServiceState} {i : String}
    {R : Val} (p : Option Int) (em : Option String)
    (hc : s.cacheReady = true) (ht : truthy R = true) :
    (update_analysis_status s i "completed" p em (some R)).cacheResults =
      aset i (serialize_analysis_result R) s.cacheResults := by
  unfold update_analysis_status
  dsimp only
  rw [cache_analysis_status_cacheResults]
  have hc1 : (update_registry_step s i "completed" p em).cacheReady = true := by simp [hc]
  split
  · rw [update_status_in_db_cacheResults]
    rw [store_results_step_cacheResults_completed hc1 ht]
    simp
  · rw [store_results_step_cacheResults_completed hc1 ht]
    simp

theorem store_results_step_dbDetails_completed {s : ServiceState} {i : String}
    {R : Val} (hd : s.dbReady = true) (ht : truthy R = true) :
    (store_results_step s i "completed" (some R)).dbDetails =
      s.dbDetails ++ [(i, serialize_analysis_result R)] := by
  unfold store_results_step
  dsimp only
  rw [if_pos (by simp [ht])]
  rcases hsr : afind i (store_analysis_results s i R).registry with _ | a <;>
    simp [store_analysis_results_dbDetails_of_ready _ _ hd]

theorem update_analysis_status_dbDetails_completed {s : ServiceState} {i : String}
    {R : Val} (p : Option Int) (em : Option String)
    (hd : s.dbReady = true) (ht : truthy R = true) :
    (update_analysis_status s i "completed" p em (some R)).dbDetails =
      s.dbDetails ++ [(i, serialize_analysis_result R)] := by
  unfold update_analysis_status
  dsimp only
  rw [cache_analysis_status_dbDetails]
  have hd1 : (update_registry_step s i "completed" p em).dbReady = true := by simp [hd]
  split
  · rw [update_status_in_db_dbDetails]
    rw [store_results_step_dbDetails_completed hd1 ht]
    simp
  · rw [store_results_step_dbDetails_completed hd1 ht]
    simp

theorem update_analysis_status_registry_results {s : ServiceState} {i : String}
    {a : RegistryEntry} {R : Val} (p : Option Int) (em : Option String)
    (hmem : afind i s.registry = some a) (ht : truthy R = true) :
    ∃ b, afind i (update_analysis_status s i "completed" p em (some R)).registry = some b
      ∧ b.results = some (serialize_analysis_result R) ∧ b.status = "completed" := by
  unfold update_analysis_status
  dsimp only
  rw [cache_analysis_status_registry]
  have hmem1 :
      afind i (update_registry_step s i "completed" p em).registry =
        some (updated_entry a "completed" p em) := by
    rw [update_registry_step_registry_of_some _ p em hmem, afind_aset_self]
  have hsr := store_results_step_registry_completed hmem1 ht
  split
  · rw [update_status_in_db_registry, hsr, afind_aset_self]
    exact ⟨_, rfl, rfl, updated_entry_status a "completed" p em⟩
  · rw [hsr, afind_aset_self]
    exact ⟨_, rfl, rfl, updated_entry_status a "completed" p em⟩

theorem update_analysis_status_registry_none {s : ServiceState} (i st : String)
    (p : Option Int) (em : Option String) (r : Option Val)
    (hmem : afind i s.registry = none) :
    afind i (update_analysis_status s i st p em r).registry = none := by
  unfold update_analysis_status
  dsimp only
  rw [cache_analysis_status_registry]
  have h1 := update_registry_step_registry_of_none (s := s) (i := i) st p em hmem
  have h2 : afind i (update_registry_step s i st p em).registry = none := by
    rw [h1]; exact hmem
  have h3 := store_results_step_registry_of_none (s := update_registry_step s i st p em) st r h2
  split
  · rw [update_status_in_db_registry, h3, h1]
    exact hmem
  · rw [h3, h1]
    exact hmem

/-! Concrete states used as counterexamples and witnesses. -/

/-- An empty service state with the given adapter availability. -/
def mkState (cacheReady dbReady mqConnected : Bool) : ServiceState :=
  { cacheReady := cacheReady, dbReady := dbReady, mqConnected := mqConnected,
    cacheStatus := [], cacheResults := [], dbRequests := [], dbDetails := [],
    registry := [], totalSubmitted := 0, totalCompleted := 0, totalFailed := 0 }

/-- A registry entry for a job that already completed. -/
def completedEntryA : RegistryEntry :=
  { evidence_id := "EV-1", analysis_type := "document", status := "completed",
    progress := 100, error_message := none, results := none,
    started_at := true, completed_at := true }

/-- Job `A` recorded as `completed` in every tier, all adapters up. -/
def stateTerminalA : ServiceState :=
  { cacheReady := true, dbReady := true, mqConnected := false,
    cacheStatus := [("A", { status := "completed", progress := 100, evidence_id := some "EV-1" })],
    cacheResults := [],
    dbRequests := [("A", { status := "completed", progress := some 100,
                           error_message := none, evidence_id := some "EV-1" })],
    dbDetails := [],
    registry := [("A", completedEntryA)],
    totalSubmitted := 1, totalCompleted := 1, totalFailed := 0 }

/-- A registry entry for a job mid-processing with progress 50. -/
def processingEntryB : RegistryEntry :=
  { evidence_id := "EV-2", analysis_type := "image", status := "processing",
    progress := 50, error_message := none, results := none,
    started_at := true, completed_at := false }

/-- Job `B` at progress 50, cache up. -/
def stateProgressB : ServiceState :=
  { cacheReady := true, dbReady := false, mqConnected := false,
    cacheStatus := [("B", { status := "processing", progress := 50, evidence_id := some "EV-2" })],
    cacheResults := [], dbRequests := [], dbDetails := [],
    registry := [("B", processingEntryB)],
    totalSubmitted := 1, totalCompleted := 0, totalFailed := 0 }

/-- A registry entry for a freshly submitted pending job. -/
def pendingEntryC : RegistryEntry :=
  { evidence_id := "EV-3", analysis_type := "audio", status := "pending",
    progress := 0, error_message := none, results := none,
    started_at := false, completed_at := false }

/-- Cache up but empty, durable store up but with no document for `C`,
while the registry holds job `C`. -/
def stateDbMissC : ServiceState :=
  { cacheReady := true, dbReady := true, mqConnected := false,
    cacheStatus := [], cacheResults := [], dbRequests := [], dbDetails := [],
    registry := [("C", pendingEntryC)],
    totalSubmitted := 1, totalCompleted := 0, totalFailed := 0 }

/-! Claim theorems. -/

/-- C1 counterexample: with job `A` recorded as `completed` in every
tier, `update_analysis_status(A, processing)` overwrites the stored
status to `processing` both in the registry and as observed through
`get_analysis_status`, so the terminal status is not preserved. -/
theorem claim_C1_counterexample :
    ((afind "A" (update_analysis_status stateTerminalA "A" "processing" (some 50) none
        none).registry).map RegistryEntry.status = some "processing")
    ∧ ((get_analysis_status (update_analysis_status stateTerminalA "A" "processing" (some 50)
        none none) "A").map AnalysisStatusR.status = some "processing") := by
  exact ⟨rfl, rfl⟩

/-- C1 (amended): `update_analysis_status` applies the requested status
unconditionally, even when the recorded status is terminal
(`completed`/`failed`/`cancelled`); only `cancel_analysis` treats
terminal states as final, returning `False` and leaving the state
unchanged. -/
theorem claim_C1_amended (s : ServiceState) (i : String) (a : RegistryEntry)
    (st : String) (p : Option Int) (em : Option String) (r : Option Val)
    (hmem : afind i s.registry = some a)
    (hterm : a.status = "completed" ∨ a.status = "failed" ∨ a.status = "cancelled") :
    (afind i (update_analysis_status s i st p em r).registry).map RegistryEntry.status =
        some st
    ∧ cancel_analysis s i = (false, s) := by
  constructor
  · exact update_analysis_status_registry_status st p em r hmem
  · unfold cancel_analysis
    rw [hmem]
    have hcond : (a.status == "completed" || a.status == "failed" ||
        a.status == "cancelled") = true := by
      rcases hterm with h | h | h <;> simp [h]
    simp [hcond]

/-- C1 witness: the amended statement applied to job `A` of
`stateTerminalA` with new status `processing`. -/
theorem claim_C1_amended_witness :
    (afind "A" stateTerminalA.registry = some completedEntryA
      ∧ completedEntryA.status = "completed")
    ∧ ((afind "A" (update_analysis_status stateTerminalA "A" "processing" (some 50) none
          none).registry).map RegistryEntry.status = some "processing"
       ∧ cancel_analysis stateTerminalA "A" = (false, stateTerminalA)) :=
  ⟨⟨rfl, rfl⟩,
    claim_C1_amended stateTerminalA "A" completedEntryA "processing" (some 50) none none
      rfl (Or.inl rfl)⟩

/-- C2 counterexample: job `B` has recorded progress 50 while
`processing`; `update_analysis_status(B, processing, progress=10)`
regresses the stored progress to 10 in both the registry and the
cache. -/
theorem claim_C2_counterexample :
    ((afind "B" (update_analysis_status stateProgressB "B" "processing" (some 10) none
        none).registry).map RegistryEntry.progress = some 10)
    ∧ ((afind "B" (update_analysis_status stateProgressB "B" "processing" (some 10) none
        none).cacheStatus).map CacheStatusDoc.progress = some 10)
    ∧ (afind "B" stateProgressB.registry).map RegistryEntry.progress = some 50 := by
  exact ⟨rfl, rfl, rfl⟩

/-- C2 (amended): the stored progress is the last supplied value —
`update_analysis_status` overwrites the registry progress with whatever
progress argument it is given, with no monotonicity guard, so a lower
value regresses the stored progress. -/
theorem claim_C2_amended (s : ServiceState) (i : String) (a : RegistryEntry)
    (st : String) (p : Int) (em : Option String) (r : Option Val)
    (hmem : afind i s.registry = some a) :
    (afind i (update_analysis_status s i st (some p) em r).registry).map
        RegistryEntry.progress = some p :=
  update_analysis_status_registry_progress st p em r hmem

/-- C2 witness: the amended statement applied to job `B` at recorded
progress 50 with a lower supplied progress 10. -/
theorem claim_C2_amended_witness :
    (afind "B" stateProgressB.registry = some processingEntryB
      ∧ processingEntryB.progress = 50)
    ∧ (afind "B" (update_analysis_status stateProgressB "B" "processing" (some 10) none
        none).registry).map RegistryEntry.progress = some 10 :=
  ⟨⟨rfl, rfl⟩,
    claim_C2_amended stateProgressB "B" processingEntryB "processing" 10 none none rfl⟩

/-- C3 counterexample: cache ready but empty, durable store ready but
without a document for `C`, registry holding job `C` — yet
`get_analysis_status` returns `None` (NotFound) instead of the registry
entry. -/
theorem claim_C3_counterexample :
    get_analysis_status stateDbMissC "C" = none
    ∧ afind "C" stateDbMissC.registry = some pendingEntryC := by
  exact ⟨rfl, rfl⟩

/-- C3 (amended): reads go Fast Cache, then Durable Store, then
Registry, but only tier *unavailability* (and a cache miss) falls
through: when the durable store is ready its answer — including a miss —
is returned directly, so a store miss yields NotFound without the
registry ever being consulted. -/
theorem claim_C3_amended (s : ServiceState) (i : String)
    (hc : get_cached_status s i = none) (hdb : s.dbReady = true)
    (hmiss : get_status_from_db s i = none) :
    get_analysis_status s i = none := by
  unfold get_analysis_status
  rw [hc, hdb]
  simp [hmiss]

/-- C3 witness: the amended statement applied to `stateDbMissC` and job
`C`. -/
theorem claim_C3_amended_witness :
    (get_cached_status stateDbMissC "C" = none
      ∧ stateDbMissC.dbReady = true
      ∧ get_status_from_db stateDbMissC "C" = none)
    ∧ get_analysis_status stateDbMissC "C" = none :=
  ⟨⟨rfl, rfl, rfl⟩, claim_C3_amended stateDbMissC "C" rfl rfl rfl⟩

/-- C9: for an id absent from the registry, `update_analysis_status`
still upserts a status document into the durable store (when ready), and
a later `get_analysis_status` returns the updated status for this
never-submitted id. -/
theorem claim_C9 (s : ServiceState) (i st : String) (p : Option Int)
    (em : Option String) (r : Option Val)
    (_hreg : afind i s.registry = none) (hdb : s.dbReady = true)
    (hst : validStatus st = true) :
    (afind i (update_analysis_status s i st p em r).dbRequests).map DbRequestDoc.status =
        some st
    ∧ (get_analysis_status (update_analysis_status s i st p em r) i).map
        AnalysisStatusR.status = some st := by
  refine ⟨update_analysis_status_dbRequests_doc i st p em r hdb, ?_⟩
  by_cases hc : s.cacheReady
  · rcases update_analysis_status_cache_doc i st p em r hc with ⟨ev, hdoc⟩
    have hcs := get_cached_status_status_of_doc
      (s := update_analysis_status s i st p em r) (by simp [hc]) hdoc hst
    rcases hco : get_cached_status (update_analysis_status s i st p em r) i with _ | cst
    · rw [hco] at hcs
      simp at hcs
    · rw [hco] at hcs
      unfold get_analysis_status
      rw [hco]
      exact hcs
  · have hcnone : get_cached_status (update_analysis_status s i st p em r) i = none :=
      get_cached_status_of_not_ready i (by simp [Bool.not_eq_true] at hc; simp [hc])
    have hdocst := update_analysis_status_dbRequests_doc i st p em r hdb
    rcases hdo : afind i (update_analysis_status s i st p em r).dbRequests with _ | doc
    · rw [hdo] at hdocst
      simp at hdocst
    · rw [hdo] at hdocst
      simp only [Option.map] at hdocst
      have hds : doc.status = st := by
        simpa using hdocst
      unfold get_analysis_status
      rw [hcnone]
      rw [if_pos (by simp [hdb])]
      have := get_status_from_db_status_of_doc
        (s := update_analysis_status s i st p em r) hdo (by rw [hds]; exact hst)
      rw [hds] at this
      exact this

/-- C9 witness: the statement applied to an empty state with the durable
store up and the cache down, for an id never submitted. -/
theorem claim_C9_witness :
    (afind "X9" (mkState false true false).registry = none
      ∧ (mkState false true false).dbReady = true
      ∧ validStatus "processing" = true)
    ∧ ((afind "X9" (update_analysis_status (mkState false true false) "X9" "processing"
          (some 10) none none).dbRequests).map DbRequestDoc.status = some "processing"
       ∧ (get_analysis_status (update_analysis_status (mkState false true false) "X9"
          "processing" (some 10) none none) "X9").map AnalysisStatusR.status =
          some "processing") :=
  ⟨⟨rfl, rfl, rfl⟩,
    claim_C9 (mkState false true false) "X9" "processing" (some 10) none none rfl rfl rfl⟩

/-- C10: when `update_analysis_status` is called with no progress
argument, the status document written to the cache carries progress 0
(`progress or 0`), regardless of any higher progress previously
recorded. -/
theorem claim_C10 (s : ServiceState) (i st : String) (em : Option String)
    (r : Option Val) (h : s.cacheReady = true) :
    (afind i (update_analysis_status s i st none em r).cacheStatus).map
        CacheStatusDoc.progress = some 0 := by
  rcases update_analysis_status_cache_doc i st none em r h with ⟨ev, hdoc⟩
  rw [hdoc]
  rfl

/-- C10 witness: a progress-less `completed` update on job `B` (cached
progress 50) resets the cached progress to 0. -/
theorem claim_C10_witness :
    (stateProgressB.cacheReady = true
      ∧ (afind "B" stateProgressB.cacheStatus).map CacheStatusDoc.progress = some 50)
    ∧ (afind "B" (update_analysis_status stateProgressB "B" "completed" none none
        none).cacheStatus).map CacheStatusDoc.progress = some 0 :=
  ⟨⟨rfl, rfl⟩, claim_C10 stateProgressB "B" "completed" none none rfl⟩

/-- The state after submitting job `B5` to a service whose cache and
durable store are both down; id `A5` was never submitted. -/
def stateC5 : ServiceState :=
  submit_analysis (mkState false false false) "B5" "EV-5" "document"

/-- C5 counterexample: a never-submitted id (`A5`) and an existing
pending id (`B5`) produce the identical public outcome —
`get_analysis_results` returns `None` for both and the route returns
HTTP 404 for both — so NotFound and NotReady are not distinct at the
public interface. -/
theorem claim_C5_counterexample :
    afind "A5" stateC5.registry = none
    ∧ (afind "B5" stateC5.registry).map RegistryEntry.status = some "pending"
    ∧ get_analysis_results stateC5 "A5" = none
    ∧ get_analysis_results stateC5 "B5" = none
    ∧ router_get_analysis_results stateC5 "A5" = RouterResult.http404
    ∧ router_get_analysis_results stateC5 "B5" = RouterResult.http404 := by
  exact ⟨rfl, rfl, rfl, rfl, rfl, rfl⟩

/-- C5 (amended): `get_analysis_results` collapses NotFound and
NotReady: whenever the status read does not report `completed` — whether
the id is unknown everywhere or the job merely is not finished — the
service returns `None` and the route answers HTTP 404. -/
theorem claim_C5_amended (s : ServiceState) (i : String)
    (h : Option.all (fun st => st.status != "completed") (get_analysis_status s i) = true) :
    get_analysis_results s i = none
    ∧ router_get_analysis_results s i = RouterResult.http404 := by
  have hr : get_analysis_results s i = none := by
    unfold get_analysis_results
    rcases hs : get_analysis_status s i with _ | st
    · rfl
    · rw [hs] at h
      simp only [Option.all] at h
      simp [h]
  refine ⟨hr, ?_⟩
  unfold router_get_analysis_results
  rw [hr]

/-- C5 witness: the amended statement applied to the pending job `B5` of
`stateC5`. -/
theorem claim_C5_amended_witness :
    Option.all (fun st => st.status != "completed") (get_analysis_status stateC5 "B5") = true
    ∧ (get_analysis_results stateC5 "B5" = none
       ∧ router_get_analysis_results stateC5 "B5" = RouterResult.http404) :=
  ⟨rfl, claim_C5_amended stateC5 "B5" rfl⟩

/-- The completed result of the spec scenario:
`{"authenticity_analysis": {"is_authentic": false, "confidence": 0.82}}`. -/
def documentScenarioResult : Val :=
  Val.obj [("authenticity_analysis",
    Val.obj [("is_authentic", Val.bool false), ("confidence", Val.num (82 / 100))])]

/-- The same result with the 0.82 additionally exposed as the top-level
`confidence_score` field the packager actually reads. -/
def documentScenarioWithScore : Val :=
  Val.obj [("confidence_score", Val.num (82 / 100)),
           ("authenticity_analysis",
             Val.obj [("is_authentic", Val.bool false), ("confidence", Val.num (82 / 100))])]

/-- C6 counterexample: on the scenario result the packaged payload has
`anomaliesDetected = true` but `confidence = 0`, not 82 — the
normalisation rule is applied to the top-level `confidence_score` field,
which is absent here. -/
theorem claim_C6_counterexample :
    (build_evidence_analysis_payload [] "AID-6" "EVID-1" documentScenarioResult).map
        (fun p => (p.confidence, p.anomaliesDetected)) = Except.ok (0, true) := by
  rfl

/-- C6 (amended): on the scenario result the payload has
`anomaliesDetected = true` and `confidence = 0` (the nested 0.82 is only
copied verbatim into the findings); the scale-by-100 rule does fire, and
yields 82, when the 0.82 arrives as the top-level `confidence_score`. -/
theorem claim_C6_amended :
    build_evidence_analysis_payload [] "AID-6" "EVID-1" documentScenarioResult =
      Except.ok
        { confidence := 0, anomaliesDetected := true,
          findings :=
            [Val.obj [("type", Val.str "document_forgery"),
                      ("confidence", Val.num (82 / 100))],
             Val.obj [("type", Val.str "audio_tampering"),
                      ("confidence", Val.num (82 / 100))]],
          metadata := [("analysisId", Val.str "AID-6"),
                       ("evidenceId", Val.str "EVID-1"),
                       ("completedAt", Val.str "")] }
    ∧ (build_evidence_analysis_payload [] "AID-6" "EVID-1" documentScenarioWithScore).map
        (fun p => (p.confidence, p.anomaliesDetected)) = Except.ok (82, true) := by
  constructor
  · rfl
  · have hq : ((82 : ℚ) / 100) ≤ 1 := by norm_num
    have h82 : ((82 : ℚ) / 100 * 100) = 82 := by norm_num
    have hf : Int.floor (82 : ℚ) = 82 := by norm_num
    have hpy : pyRound ((82 : ℚ) / 100 * 100) = 82 := by
      rw [h82]
      simp only [pyRound, hf]
      norm_num
    have hstep : build_evidence_analysis_payload [] "AID-6" "EVID-1" documentScenarioWithScore =
        Except.ok
          { confidence :=
              if (82 : ℚ) / 100 ≤ 1 then max 0 (min 100 (pyRound ((82 : ℚ) / 100 * 100)))
              else max 0 (min 100 (pyRound ((82 : ℚ) / 100))),
            anomaliesDetected := true,
            findings :=
              [Val.obj [("type", Val.str "document_forgery"),
                        ("confidence", Val.num (82 / 100))],
               Val.obj [("type", Val.str "audio_tampering"),
                        ("confidence", Val.num (82 / 100))]],
            metadata := [("analysisId", Val.str "AID-6"),
                         ("evidenceId", Val.str "EVID-1"),
                         ("completedAt", Val.str "")] } := rfl
    rw [hstep, if_pos hq, hpy]
    rfl

/-- A result value carrying none of the recognized indicator fields. -/
def unrecognizedResult : Val := Val.obj [("foo", Val.str "bar")]

/-- C7 counterexample: a result with none of the recognized indicator
fields packages *successfully* into confidence 0, no anomalies, empty
findings — and its metadata carries no `error` marker, contrary to the
claim. -/
theorem claim_C7_counterexample :
    (http_callback_payload [] "AID-7" "EVID-7" unrecognizedResult).confidence = 0
    ∧ (http_callback_payload [] "AID-7" "EVID-7" unrecognizedResult).anomaliesDetected = false
    ∧ (http_callback_payload [] "AID-7" "EVID-7" unrecognizedResult).findings = []
    ∧ afind "error" (http_callback_payload [] "AID-7" "EVID-7" unrecognizedResult).metadata =
        none := by
  exact ⟨rfl, rfl, rfl, rfl⟩

/-- The result keys `_build_evidence_analysis_payload` inspects. -/
def recognizedIndicatorKey (k : String) : Bool :=
  k == "confidence_score" || k == "manipulation_detection" || k == "deepfake_detection" ||
    k == "authenticity_analysis"

theorem afind_none_of_all_not {α : Type} {fields : List (String × α)} {pred : String → Bool}
    (h : fields.all (fun kv => !pred kv.1) = true) {k : String} (hk : pred k = true) :
    afind k fields = none := by
  induction fields with
  | nil => rfl
  | cons hd tl ih =>
    obtain ⟨k2, v⟩ := hd
    simp only [List.all_cons, Bool.and_eq_true] at h
    obtain ⟨h1, h2⟩ := h
    have hne : (k == k2) = false := by
      by_cases he : k = k2
      · subst he
        rw [hk] at h1
        simp at h1
      · simp [he]
    simp [afind, hne]
    exact ih h2

/-- C7 (amended): a result value with none of the recognized indicator
fields packages without an exception into a payload with confidence 0,
no anomalies and empty findings, but its metadata carries *no* `error`
marker — the marker appears only in the fallback payload substituted
when packaging raises. -/
theorem claim_C7_amended (registry : List (String × RegistryEntry)) (aid eid : String)
    (fields : List (String × Val))
    (h : fields.all (fun kv => !recognizedIndicatorKey kv.1) = true) :
    (http_callback_payload registry aid eid (Val.obj fields)).confidence = 0
    ∧ (http_callback_payload registry aid eid (Val.obj fields)).anomaliesDetected = false
    ∧ (http_callback_payload registry aid eid (Val.obj fields)).findings = []
    ∧ afind "error" (http_callback_payload registry aid eid (Val.obj fields)).metadata =
        none := by
  have h1 : afind "confidence_score" fields = none := afind_none_of_all_not h (by rfl)
  have h2 : afind "manipulation_detection" fields = none := afind_none_of_all_not h (by rfl)
  have h3 : afind "deepfake_detection" fields = none := afind_none_of_all_not h (by rfl)
  have h4 : afind "authenticity_analysis" fields = none := afind_none_of_all_not h (by rfl)
  unfold http_callback_payload build_evidence_analysis_payload
  simp [isObj, objGet, afind, h1, h2, h3, h4, orEmptyDict, dictGet, truthy, hasKey,
    Bind.bind, Except.bind, Pure.pure, Except.pure]
  rcases hat : afind aid registry with _ | a
  · simp [afind]
  · dsimp only [Option.map]
    split <;> simp [afind]

/-- C7 witness: the amended statement applied to the concrete
unrecognized result `{"foo": "bar"}`. -/
theorem claim_C7_amended_witness :
    [("foo", Val.str "bar")].all (fun kv => !recognizedIndicatorKey kv.1) = true
    ∧ ((http_callback_payload [] "AID-7W" "EVID-7W" (Val.obj [("foo", Val.str "bar")])).confidence = 0
       ∧ (http_callback_payload [] "AID-7W" "EVID-7W" (Val.obj [("foo", Val.str "bar")])).anomaliesDetected = false
       ∧ (http_callback_payload [] "AID-7W" "EVID-7W" (Val.obj [("foo", Val.str "bar")])).findings = []
       ∧ afind "error" (http_callback_payload [] "AID-7W" "EVID-7W"
           (Val.obj [("foo", Val.str "bar")])).metadata = none) :=
  ⟨rfl, claim_C7_amended [] "AID-7W" "EVID-7W" [("foo", Val.str "bar")] rfl⟩

/-- C8: with the broker connected, the broker push raises (the
`publish_message` attribute does not exist on `MessageQueueService`) and
the single `try`/`except` around both pushes then skips the HTTP
callback entirely; the HTTP callback is attempted only when the broker
is not connected.  The converse direction does hold: an HTTP failure
cannot affect the broker push, which has already run, and the HTTP
helper swallows its own errors. -/
theorem claim_C8_failing :
    (send_results_to_evidence_service [] true "AID-8" "EVID-8" unrecognizedResult).mqPushAttempted
        = true
    ∧ (send_results_to_evidence_service [] true "AID-8" "EVID-8"
        unrecognizedResult).httpPushAttempted = false
    ∧ (send_results_to_evidence_service [] true "AID-8" "EVID-8"
        unrecognizedResult).errorLogged = true
    ∧ (send_results_to_evidence_service [] false "AID-8" "EVID-8"
        unrecognizedResult).httpPushAttempted = true := by
  exact ⟨rfl, rfl, rfl, rfl⟩

/-- C4: after `update_analysis_status(id, completed, results=R)` with a
truthy result on a job with no previously stored result document, the
serialized result was persisted to the cache (when ready) and to the
durable store (when ready) before the status write, so any status read
that reports `completed` is matched by `get_analysis_results` returning
the result — never a not-ready outcome. -/
theorem claim_C4 (s : ServiceState) (i : String) (R : Val) (p : Option Int)
    (em : Option String) (ht : truthy R = true)
    (hfresh : afind i s.dbDetails = none) :
    ((get_analysis_status (update_analysis_status s i "completed" p em (some R)) i).map
        AnalysisStatusR.status = some "completed" →
      get_analysis_results (update_analysis_status s i "completed" p em (some R)) i =
        some (serialize_analysis_result R))
    ∧ (s.cacheReady = true →
        afind i (update_analysis_status s i "completed" p em (some R)).cacheResults =
          some (serialize_analysis_result R))
    ∧ (s.dbReady = true →
        get_results_from_db (update_analysis_status s i "completed" p em (some R)) i =
          some (serialize_analysis_result R)) := by
  have hcr : (update_analysis_status s i "completed" p em (some R)).cacheReady =
      s.cacheReady := by simp
  have hdr : (update_analysis_status s i "completed" p em (some R)).dbReady =
      s.dbReady := by simp
  have ccache : s.cacheReady = true →
      afind i (update_analysis_status s i "completed" p em (some R)).cacheResults =
        some (serialize_analysis_result R) := by
    intro hc
    rw [update_analysis_status_cacheResults_completed p em hc ht, afind_aset_self]
  have cdb : s.dbReady = true →
      get_results_from_db (update_analysis_status s i "completed" p em (some R)) i =
        some (serialize_analysis_result R) := by
    intro hd
    unfold get_results_from_db
    rw [update_analysis_status_dbDetails_completed p em hd ht,
      afind_append_single_of_none hfresh]
    dsimp only
    rw [if_pos (truthy_serialize ht)]
  refine ⟨?_, ccache, cdb⟩
  intro hstatus
  by_cases hc : s.cacheReady = true
  · rcases update_analysis_status_cache_doc i "completed" p em (some R) hc with ⟨ev, hdoc⟩
    have hcs := get_cached_status_status_of_doc
      (s := update_analysis_status s i "completed" p em (some R)) (by simp [hc]) hdoc rfl
    rcases hco : get_cached_status (update_analysis_status s i "completed" p em (some R)) i
      with _ | cst
    · rw [hco] at hcs
      simp at hcs
    · rw [hco] at hcs
      have hcst : cst.status = "completed" := by simpa using hcs
      unfold get_analysis_results get_analysis_status
      rw [hco]
      dsimp only
      rw [hcst]
      simp only [bne_self_eq_false, Bool.false_eq_true, if_false]
      rw [hcr, if_pos hc, ccache hc]
  · have hcf : s.cacheReady = false := by simpa using hc
    have hcnone :
        get_cached_status (update_analysis_status s i "completed" p em (some R)) i = none :=
      get_cached_status_of_not_ready i (by rw [hcr]; exact hcf)
    by_cases hd : s.dbReady = true
    · rcases hgs : get_analysis_status (update_analysis_status s i "completed" p em (some R)) i
        with _ | st
      · rw [hgs] at hstatus
        simp at hstatus
      · rw [hgs] at hstatus
        have hstc : st.status = "completed" := by simpa using hstatus
        unfold get_analysis_results
        rw [hgs]
        dsimp only
        rw [hstc]
        simp only [bne_self_eq_false, Bool.false_eq_true, if_false]
        rw [hcr, hcf]
        simp only [Bool.false_eq_true, if_false]
        rw [hdr, if_pos hd]
        exact cdb hd
    · have hdf : s.dbReady = false := by simpa using hd
      rcases hmem : afind i s.registry with _ | a
      · have hrnone :
            afind i (update_analysis_status s i "completed" p em (some R)).registry = none :=
          update_analysis_status_registry_none i "completed" p em (some R) hmem
        have hgs :
            get_analysis_status (update_analysis_status s i "completed" p em (some R)) i =
              none := by
          unfold get_analysis_status
          rw [hcnone]
          dsimp only
          rw [hdr, hdf]
          simp [hrnone]
        rw [hgs] at hstatus
        simp at hstatus
      · rcases update_analysis_status_registry_results p em hmem ht with ⟨b, hb, hbres, hbst⟩
        have hgs :
            get_analysis_status (update_analysis_status s i "completed" p em (some R)) i =
              some { analysis_id := i, evidence_id := b.evidence_id, status := b.status,
                     progress := b.progress, error_message := b.error_message } := by
          unfold get_analysis_status
          rw [hcnone]
          dsimp only
          rw [hdr, hdf]
          simp only [Bool.false_eq_true, if_false]
          rw [hb]
          dsimp only
          rw [if_pos (by rw [hbst]; rfl)]
        unfold get_analysis_results
        rw [hgs]
        dsimp only
        rw [hbst]
        simp only [bne_self_eq_false, Bool.false_eq_true, if_false]
        rw [hcr, hcf]
        simp only [Bool.false_eq_true, if_false]
        rw [hdr, hdf]
        simp only [Bool.false_eq_true, if_false]
        rw [hb]
        dsimp only
        rw [hbres]

/-- C4 witness: the statement applied to `stateDbMissC` (cache and store
both up, job `C` in the registry, no stored result document) with the
scenario result. -/
theorem claim_C4_witness :
    (truthy documentScenarioResult = true
      ∧ afind "C" stateDbMissC.dbDetails = none)
    ∧ (((get_analysis_status (update_analysis_status stateDbMissC "C" "completed" (some 100)
          none (some documentScenarioResult)) "C").map AnalysisStatusR.status =
            some "completed" →
        get_analysis_results (update_analysis_status stateDbMissC "C" "completed" (some 100)
          none (some documentScenarioResult)) "C" =
            some (serialize_analysis_result documentScenarioResult))
       ∧ (stateDbMissC.cacheReady = true →
          afind "C" (update_analysis_status stateDbMissC "C" "completed" (some 100) none
            (some documentScenarioResult)).cacheResults =
              some (serialize_analysis_result documentScenarioResult))
       ∧ (stateDbMissC.dbReady = true →
          get_results_from_db (update_analysis_status stateDbMissC "C" "completed" (some 100)
            none (some documentScenarioResult)) "C" =
              some (serialize_analysis_result documentScenarioResult))) :=
  ⟨⟨rfl, rfl⟩,
    claim_C4 stateDbMissC "C" documentScenarioResult (some 100) none rfl rfl⟩
